import Mathlib

/-!
Verification of the interactive depth-inspection overlay found in
`samples/api/get_depth_with_region.cc` of the MYNT-EYE-S-SDK repository.

The C++ class `DepthRegion` owns the interaction state
(`n_ : uint32_t` radius, `show_ : bool`, `selected_ : bool`,
`point_ : cv::Point`, i.e. a pair of `int`s) and three operations:

* `OnMouse(event, x, y, flags)` — the mouse-event state machine;
* `ShowElems(depth, elem2string, elem_space, getinfo)` — renders a square
  text grid of depth samples around `point_`;
* `DrawRect(image)` — draws a rectangle marking the inspected region on the
  depth frame.

`main` supplies the cell formatter (a lambda mapping a `ushort` sample to
`"invalid"` when `>= 10000`, else its decimal string).

Embedding conventions:
* `int` values are modelled as `Int`; the radius `n_ : uint32_t` as `Nat`.
* Wherever the C++ source mixes the unsigned `n_` into `int` arithmetic and
  converts the result back to `int` (the `static_cast<int>(point_.x - n_)`
  tests in `OnMouse` and the `cv::Point(point_.x - n, ...)` corners in
  `DrawRect`), the embedding applies `wrap32`, the exact semantics of
  computing modulo 2^32 and reinterpreting as a signed 32-bit value.
* Drawing calls (`cv::putText`, `cv::rectangle`, `cv::imshow`) are modelled
  by returning a description of what would be drawn: `ShowElems` returns the
  allocated canvas dimensions plus the list of cells whose text is drawn,
  and `DrawRect` returns the rectangle (corners, color, thickness) it would
  paint; returning `none` models the early `if (!show_) return;` no-op.
-/

namespace DepthWithRegion

/-- Reinterpret an integer as a signed 32-bit value: reduce modulo `2^32`
into `[0, 2^32)` and map the upper half down by `2^32`.  This is the exact
effect of C++ unsigned 32-bit arithmetic followed by a conversion back to
a (two's-complement) `int`. -/
def wrap32 (z : Int) : Int :=
  let m := z % 4294967296
  if m < 2147483648 then m else m - 4294967296

/-- Mouse event kinds relevant to `DepthRegion::OnMouse`:
`CV_EVENT_MOUSEMOVE`, `CV_EVENT_LBUTTONDOWN`, and every other event code
(the first `if` in `OnMouse` returns on anything else). -/
inductive MouseEvent : Type
  | move
  | lbuttondown
  | other
  deriving DecidableEq

/-- The interaction state of `DepthRegion`: radius `n_`, visibility latch
`show_`, pinned flag `selected_`, and the inspected point `point_`. -/
structure SelectorState : Type where
  n : Nat
  shown : Bool
  selected : Bool
  px : Int
  py : Int
  deriving DecidableEq

/-- The constructor `DepthRegion(std::uint32_t n)`: stores the radius and
initializes `show_ = false`, `selected_ = false`, `point_ = (0, 0)`. -/
def DepthRegion.init (n : Nat) : SelectorState :=
  { n := n, shown := false, selected := false, px := 0, py := 0 }

/-- `DepthRegion::OnMouse` from `get_depth_with_region.cc`:

* any event other than move / left-button-down returns immediately;
* otherwise `show_ = true`;
* on move: if not selected, `point_ := (x, y)`;
* on left-button-down: if selected and `(x, y)` lies in the square
  `[point_.x - n_, point_.x + n_] × [point_.y - n_, point_.y + n_]`
  (each bound computed as `static_cast<int>` of unsigned arithmetic,
  hence `wrap32`), clear `selected_`; if not selected, set `selected_`;
  in every down branch the trailing statements `point_.x = x;
  point_.y = y;` then move the point to the click location. -/
def OnMouse (s : SelectorState) (ev : MouseEvent) (x y : Int) : SelectorState :=
  match ev with
  | .other => s
  | .move =>
      if s.selected then
        { s with shown := true }
      else
        { s with shown := true, px := x, py := y }
  | .lbuttondown =>
      if s.selected then
        if x ≥ wrap32 (s.px - (s.n : Int)) ∧ x ≤ wrap32 (s.px + (s.n : Int)) ∧
           y ≥ wrap32 (s.py - (s.n : Int)) ∧ y ≤ wrap32 (s.py + (s.n : Int)) then
          { s with shown := true, selected := false, px := x, py := y }
        else
          { s with shown := true, px := x, py := y }
      else
        { s with shown := true, selected := true, px := x, py := y }

/-- Deliver a list of `(event, x, y)` triples to `OnMouse` in order,
modelling the sequence of callbacks the host window delivers. -/
def applyEvents (s : SelectorState) : List (MouseEvent × Int × Int) → SelectorState
  | [] => s
  | (ev, x, y) :: rest => applyEvents (OnMouse s ev x y) rest

/-- A list of pure mouse-move events at the given coordinates. -/
def moveEvents (ps : List (Int × Int)) : List (MouseEvent × Int × Int) :=
  ps.map (fun p => (MouseEvent.move, p.1, p.2))

/-- The depth frame handed to `ShowElems`: a `cv::Mat` of 16-bit samples
with `rows`, `cols`, and `depth.at<T>(y, x)` modelled by `val y x`. -/
structure DepthMat : Type where
  rows : Int
  cols : Int
  val : Int → Int → Nat

/-- One grid cell whose text `ShowElems` draws: the loop offsets `(i, j)`,
the sample coordinate `(x, y) = point_ + (i, j)` it reads from the depth
buffer, the text produced by `elem2string`, and whether the cell gets the
distinct center color (`i == 0 && j == 0`, i.e. `cv::Scalar(0, 0, 255)`
instead of black). -/
structure GridCell : Type where
  i : Int
  j : Int
  x : Int
  y : Int
  text : String
  center : Bool
  deriving DecidableEq

/-- The offset values visited by the loop
`for (int i = -n_; i <= n; ++i)` with `int n = 2 * n_ + 1;` in
`DepthRegion::ShowElems`: all integers from `-n_` up to `2 * n_ + 1`
inclusive — an asymmetric range of `3 * n_ + 2` values. -/
def offsets (r : Nat) : List Int :=
  (List.range (3 * r + 2)).map (fun (k : Nat) => (k : Int) - (r : Int))

/-- The nested cell loops of `DepthRegion::ShowElems`: for each offset `i`,
`x = point_.x + i` is bounds-checked against `[0, depth.cols)` and the
whole inner loop is skipped (`continue`) when it fails; for each offset
`j`, `y = point_.y + j` is bounds-checked against `[0, depth.rows)` and
the cell is skipped when it fails; otherwise the cell text
`elem2string(depth.at(y, x))` is drawn. -/
def cellsFor (s : SelectorState) (depth : DepthMat) (elem2str : Nat → String) :
    List GridCell :=
  (offsets s.n).flatMap (fun i =>
    let x := s.px + i
    if x < 0 ∨ x ≥ depth.cols then []
    else
      (offsets s.n).filterMap (fun j =>
        let y := s.py + j
        if y < 0 ∨ y ≥ depth.rows then none
        else some { i := i, j := j, x := x, y := y,
                    text := elem2str (depth.val y x),
                    center := i == 0 && j == 0 }))

/-- The output of one `ShowElems` call: the allocated canvas
(`cv::Mat im(space * n, space * n, CV_8UC3, white)`), the cells drawn into
it, and the optional caption from `getinfo` (drawn only when non-empty). -/
structure GridRender : Type where
  rows : Int
  cols : Int
  cells : List GridCell
  caption : Option String
  deriving DecidableEq

/-- `DepthRegion::ShowElems`: returns without output when `show_` is false;
otherwise allocates a `space * n` by `space * n` canvas with
`n = 2 * n_ + 1`, draws the in-bounds neighborhood cells, and finally the
`getinfo` caption when the supplied `getinfo` produces a non-empty string. -/
def ShowElems (s : SelectorState) (depth : DepthMat) (elem2str : Nat → String)
    (space : Int) (getinfo : Option (DepthMat → Int × Int → Nat → String)) :
    Option GridRender :=
  if s.shown = false then none
  else
    let n : Int := 2 * (s.n : Int) + 1
    some { rows := space * n, cols := space * n,
           cells := cellsFor s depth elem2str,
           caption :=
             match getinfo with
             | none => none
             | some g =>
                 let info := g depth (s.px, s.py) s.n
                 if info = "" then none else some info }

/-- The rectangle one `DrawRect` call paints onto the depth frame:
`cv::rectangle(image, (x1, y1), (x2, y2), color, thickness)`. -/
structure RectSpec : Type where
  x1 : Int
  y1 : Int
  x2 : Int
  y2 : Int
  color : Int × Int × Int
  thickness : Int
  deriving DecidableEq

/-- `DepthRegion::DrawRect`: returns without touching the image when
`show_` is false; otherwise sets `n = ((n_ > 1) ? n_ : 1) + 1` and draws
the unfilled rectangle with corners `point_ ∓ n` (the `int` corner values
arise from unsigned arithmetic with `n : uint32_t`, hence `wrap32`),
green `(0, 255, 0)` when selected and red `(0, 0, 255)` otherwise,
line width 1. -/
def DrawRect (s : SelectorState) : Option RectSpec :=
  if s.shown = false then none
  else
    let n : Nat := (if 1 < s.n then s.n else 1) + 1
    some { x1 := wrap32 (s.px - (n : Int)), y1 := wrap32 (s.py - (n : Int)),
           x2 := wrap32 (s.px + (n : Int)), y2 := wrap32 (s.py + (n : Int)),
           color := if s.selected then (0, 255, 0) else (0, 0, 255),
           thickness := 1 }

/-- The cell formatter lambda passed to `ShowElems<ushort>` in `main`:
samples `>= 10000` (the `reprojectImageTo3D` missing-value sentinel)
render as the literal string `"invalid"`, everything else as its decimal
representation via `std::to_string`. -/
def elem2string (elem : Nat) : String :=
  if 10000 ≤ elem then "invalid" else toString elem

/-! ### Helper lemmas -/

/-- `wrap32` is the identity on values representable as signed 32-bit
integers, which covers every coordinate/radius combination of interest. -/
theorem wrap32_eq_self (z : Int) (h1 : -2147483648 ≤ z) (h2 : z < 2147483648) :
    wrap32 z = z := by
  simp only [wrap32]
  split <;> omega

/-- `OnMouse` never clears the visibility latch. -/
theorem OnMouse_shown_mono (s : SelectorState) (ev : MouseEvent) (x y : Int)
    (h : s.shown = true) : (OnMouse s ev x y).shown = true := by
  cases ev <;> simp only [OnMouse] <;> (try split) <;> (try split) <;> simp [h]

/-- A move or left-button-down event sets the visibility latch. -/
theorem OnMouse_shown_of_qual (s : SelectorState) (ev : MouseEvent) (x y : Int)
    (h : ev = MouseEvent.move ∨ ev = MouseEvent.lbuttondown) :
    (OnMouse s ev x y).shown = true := by
  rcases h with rfl | rfl <;> simp only [OnMouse] <;> (try split) <;> (try split) <;> rfl

/-- Delivering further events never clears the visibility latch. -/
theorem applyEvents_shown_mono (evs : List (MouseEvent × Int × Int))
    (s : SelectorState) (h : s.shown = true) : (applyEvents s evs).shown = true := by
  induction evs generalizing s with
  | nil => exact h
  | cons e rest ih =>
      obtain ⟨ev, x, y⟩ := e
      exact ih _ (OnMouse_shown_mono s ev x y h)

/-- If an event leaves the visibility latch clear, it left the whole state
untouched (only non-qualifying events can do so). -/
theorem OnMouse_fix_of_shown_false (s : SelectorState) (ev : MouseEvent) (x y : Int)
    (h : (OnMouse s ev x y).shown = false) : OnMouse s ev x y = s := by
  cases ev with
  | other => rfl
  | move =>
      have := OnMouse_shown_of_qual s MouseEvent.move x y (Or.inl rfl)
      rw [this] at h; cases h
  | lbuttondown =>
      have := OnMouse_shown_of_qual s MouseEvent.lbuttondown x y (Or.inr rfl)
      rw [this] at h; cases h

/-- If a whole event sequence leaves the visibility latch clear, it left the
state untouched. -/
theorem applyEvents_fix_of_shown_false (evs : List (MouseEvent × Int × Int))
    (s : SelectorState) (h : (applyEvents s evs).shown = false) :
    applyEvents s evs = s := by
  induction evs generalizing s with
  | nil => rfl
  | cons e rest ih =>
      obtain ⟨ev, x, y⟩ := e
      cases hb : (OnMouse s ev x y).shown with
      | true =>
          have := applyEvents_shown_mono rest (OnMouse s ev x y) hb
          simp only [applyEvents] at h
          rw [this] at h; cases h
      | false =>
          have hfix := OnMouse_fix_of_shown_false s ev x y hb
          simp only [applyEvents] at h ⊢
          rw [hfix] at h ⊢
          exact ih s h

/-- A move event never changes the pinned flag. -/
theorem OnMouse_move_selected (s : SelectorState) (x y : Int) :
    (OnMouse s MouseEvent.move x y).selected = s.selected := by
  simp only [OnMouse]
  split <;> rfl

/-- While not pinned, a run of move events ends with the point at the last
event's coordinates. -/
theorem applyEvents_moves_last (ps : List (Int × Int)) (p : Int × Int)
    (s : SelectorState) (h : s.selected = false) :
    (applyEvents s (moveEvents (ps ++ [p]))).px = p.1 ∧
    (applyEvents s (moveEvents (ps ++ [p]))).py = p.2 := by
  induction ps generalizing s with
  | nil => simp [moveEvents, applyEvents, OnMouse, h]
  | cons q rest ih =>
      have hsel : (OnMouse s MouseEvent.move q.1 q.2).selected = false := by
        rw [OnMouse_move_selected]; exact h
      simpa [moveEvents, applyEvents] using ih (OnMouse s MouseEvent.move q.1 q.2) hsel

/-- The half-width `((n_ > 1) ? n_ : 1) + 1` computed by `DrawRect` equals
max(radius, 1) + 1. -/
theorem drawRect_halfwidth (r : Nat) : (if 1 < r then r else 1) + 1 = max r 1 + 1 := by
  split <;> omega

/-- For values below 10000 the formatter yields the decimal string, which is
at most 4 characters and hence never the 7-character token `"invalid"`. -/
theorem elem2string_ne_invalid (v : Nat) (h : v < 10000) :
    elem2string v ≠ "invalid" := by
  have hlen : (Nat.repr v).length ≤ 4 := Nat.repr_length v 4 (by norm_num) (by omega)
  intro hc
  rw [elem2string, if_neg (by omega)] at hc
  have h7 : (toString v).length = 7 := by rw [hc]; rfl
  have ht : toString v = Nat.repr v := rfl
  rw [ht] at h7
  omega

/-- Membership characterization of the cell list drawn by `ShowElems`: a
cell is drawn exactly for the offset pairs from the loop range whose sample
coordinate passes both bounds checks, and it records that coordinate, the
formatted sample read there, and the center flag. -/
theorem mem_cellsFor_iff (s : SelectorState) (depth : DepthMat)
    (f : Nat → String) (c : GridCell) :
    c ∈ cellsFor s depth f ↔
      ∃ i ∈ offsets s.n, ∃ j ∈ offsets s.n,
        ¬(s.px + i < 0 ∨ s.px + i ≥ depth.cols) ∧
        ¬(s.py + j < 0 ∨ s.py + j ≥ depth.rows) ∧
        c = { i := i, j := j, x := s.px + i, y := s.py + j,
              text := f (depth.val (s.py + j) (s.px + i)),
              center := i == 0 && j == 0 } := by
  simp only [cellsFor, List.mem_flatMap]
  constructor
  · rintro ⟨i, hi, hc⟩
    by_cases hx : s.px + i < 0 ∨ s.px + i ≥ depth.cols
    · rw [if_pos hx] at hc
      cases hc
    · rw [if_neg hx] at hc
      rw [List.mem_filterMap] at hc
      obtain ⟨j, hj, hc⟩ := hc
      by_cases hy : s.py + j < 0 ∨ s.py + j ≥ depth.rows
      · rw [if_pos hy] at hc
        cases hc
      · rw [if_neg hy] at hc
        cases hc
        exact ⟨i, hi, j, hj, hx, hy, rfl⟩
  · rintro ⟨i, hi, j, hj, hx, hy, rfl⟩
    refine ⟨i, hi, ?_⟩
    rw [if_neg hx, List.mem_filterMap]
    exact ⟨j, hj, by rw [if_neg hy]⟩

/-! ### Claim theorems -/

/-- Claim C1, counterexample.  With radius 3, pinned at P = (10, 10), a Down
event at (12, 12) — which lies inside the inclusive square, since
|12 − 10| ≤ 3 on both axes — does clear the pinned flag, but it also moves
the point to (12, 12) ≠ P: in the source the assignments `point_.x = x;
point_.y = y;` sit after the whole if/else and run in every Down branch,
so the point is NOT left equal to P as the claim states. -/
theorem c1_counterexample :
    ((12 : Int) ≥ 10 - 3 ∧ (12 : Int) ≤ 10 + 3) ∧
    (OnMouse ⟨3, true, true, 10, 10⟩ MouseEvent.lbuttondown 12 12).selected = false ∧
    ¬((OnMouse ⟨3, true, true, 10, 10⟩ MouseEvent.lbuttondown 12 12).px = 10 ∧
      (OnMouse ⟨3, true, true, 10, 10⟩ MouseEvent.lbuttondown 12 12).py = 10) := by
  decide

/-- Claim C1, amended.  For every pinned selector state at point P with
radius R (with P ± R representable in 32 bits, so the unsigned-subtraction
round-trip in the source is value-preserving), a Down event at (x, y) with
P.x − R ≤ x ≤ P.x + R and P.y − R ≤ y ≤ P.y + R clears the pinned flag AND
moves the point to (x, y): the point is updated in this branch too. -/
theorem c1_down_inside_unpins_and_moves (s : SelectorState) (x y : Int)
    (hsel : s.selected = true)
    (hxlo : -2147483648 ≤ s.px - (s.n : Int)) (hxhi : s.px + (s.n : Int) < 2147483648)
    (hylo : -2147483648 ≤ s.py - (s.n : Int)) (hyhi : s.py + (s.n : Int) < 2147483648)
    (hx1 : s.px - (s.n : Int) ≤ x) (hx2 : x ≤ s.px + (s.n : Int))
    (hy1 : s.py - (s.n : Int) ≤ y) (hy2 : y ≤ s.py + (s.n : Int)) :
    (OnMouse s MouseEvent.lbuttondown x y).selected = false ∧
    (OnMouse s MouseEvent.lbuttondown x y).px = x ∧
    (OnMouse s MouseEvent.lbuttondown x y).py = y ∧
    (OnMouse s MouseEvent.lbuttondown x y).shown = true := by
  have e1 : wrap32 (s.px - (s.n : Int)) = s.px - (s.n : Int) :=
    wrap32_eq_self _ hxlo (by omega)
  have e2 : wrap32 (s.px + (s.n : Int)) = s.px + (s.n : Int) :=
    wrap32_eq_self _ (by omega) hxhi
  have e3 : wrap32 (s.py - (s.n : Int)) = s.py - (s.n : Int) :=
    wrap32_eq_self _ hylo (by omega)
  have e4 : wrap32 (s.py + (s.n : Int)) = s.py + (s.n : Int) :=
    wrap32_eq_self _ (by omega) hyhi
  simp [OnMouse, hsel, e1, e2, e3, e4, hx1, hx2, hy1, hy2]

/-- Claim C1, witness: the amended theorem applied to the pinned state at
(10, 10) with radius 3 and a Down event at (12, 9) inside the square. -/
theorem c1_witness :
    (OnMouse ⟨3, true, true, 10, 10⟩ MouseEvent.lbuttondown 12 9).selected = false ∧
    (OnMouse ⟨3, true, true, 10, 10⟩ MouseEvent.lbuttondown 12 9).px = 12 ∧
    (OnMouse ⟨3, true, true, 10, 10⟩ MouseEvent.lbuttondown 12 9).py = 9 ∧
    (OnMouse ⟨3, true, true, 10, 10⟩ MouseEvent.lbuttondown 12 9).shown = true :=
  c1_down_inside_unpins_and_moves ⟨3, true, true, 10, 10⟩ 12 9 rfl (by decide)
    (by decide) (by decide) (by decide) (by decide) (by decide) (by decide) (by decide)

/-- Claim C3.  Once a Move or Down event has been delivered, the selector's
visibility flag is true, and it is still true after any further event
sequence of any kinds: no operation ever clears it. -/
theorem c3_visible_latch (s : SelectorState) (ev : MouseEvent) (x y : Int)
    (evs : List (MouseEvent × Int × Int))
    (h : ev = MouseEvent.move ∨ ev = MouseEvent.lbuttondown) :
    (OnMouse s ev x y).shown = true ∧
    (applyEvents (OnMouse s ev x y) evs).shown = true := by
  have h1 := OnMouse_shown_of_qual s ev x y h
  exact ⟨h1, applyEvents_shown_mono evs _ h1⟩

/-- Claim C3, witness: a Move on a fresh selector, followed by an Other and
a Down event, leaves the visibility flag true. -/
theorem c3_witness :
    (OnMouse (DepthRegion.init 3) MouseEvent.move 5 6).shown = true ∧
    (applyEvents (OnMouse (DepthRegion.init 3) MouseEvent.move 5 6)
      [(MouseEvent.other, 1, 2), (MouseEvent.lbuttondown, 7, 8)]).shown = true :=
  c3_visible_latch (DepthRegion.init 3) MouseEvent.move 5 6
    [(MouseEvent.other, 1, 2), (MouseEvent.lbuttondown, 7, 8)] (Or.inl rfl)

/-- Claim C4.  Other-kind events leave the whole state unchanged; a Move at
(x, y) sets the point to (x, y) when not pinned and leaves it unchanged
when pinned; and after any nonempty run of Move events delivered while not
pinned, the point equals the last event's coordinates. -/
theorem c4_non_down_events :
    (∀ (s : SelectorState) (x y : Int), OnMouse s MouseEvent.other x y = s) ∧
    (∀ (s : SelectorState) (x y : Int), s.selected = false →
        OnMouse s MouseEvent.move x y = { s with shown := true, px := x, py := y }) ∧
    (∀ (s : SelectorState) (x y : Int), s.selected = true →
        OnMouse s MouseEvent.move x y = { s with shown := true }) ∧
    (∀ (s : SelectorState) (ps : List (Int × Int)) (p : Int × Int),
        s.selected = false →
        (applyEvents s (moveEvents (ps ++ [p]))).px = p.1 ∧
        (applyEvents s (moveEvents (ps ++ [p]))).py = p.2) := by
  refine ⟨fun s x y => rfl, fun s x y h => ?_, fun s x y h => ?_,
    fun s ps p h => applyEvents_moves_last ps p s h⟩
  · simp [OnMouse, h]
  · simp [OnMouse, h]

/-- Claim C4, witness: an Other event fixes a concrete state; two Moves
while unpinned leave the point at the last coordinates. -/
theorem c4_witness :
    OnMouse (DepthRegion.init 3) MouseEvent.other 5 6 = DepthRegion.init 3 ∧
    (applyEvents (DepthRegion.init 3) (moveEvents [(1, 2), (7, 8)])).px = 7 ∧
    (applyEvents (DepthRegion.init 3) (moveEvents [(1, 2), (7, 8)])).py = 8 := by
  refine ⟨c4_non_down_events.1 (DepthRegion.init 3) 5 6, ?_, ?_⟩
  · exact (c4_non_down_events.2.2.2 (DepthRegion.init 3) [(1, 2)] (7, 8) rfl).1
  · exact (c4_non_down_events.2.2.2 (DepthRegion.init 3) [(1, 2)] (7, 8) rfl).2

/-- Claim C10.  If after any event sequence the visibility flag is still
false, the whole selector state equals its initial value: point (0, 0) and
pinned false. -/
theorem c10_invisible_means_initial (n : Nat) (evs : List (MouseEvent × Int × Int))
    (h : (applyEvents (DepthRegion.init n) evs).shown = false) :
    applyEvents (DepthRegion.init n) evs = DepthRegion.init n ∧
    (applyEvents (DepthRegion.init n) evs).px = 0 ∧
    (applyEvents (DepthRegion.init n) evs).py = 0 ∧
    (applyEvents (DepthRegion.init n) evs).selected = false := by
  have hfix := applyEvents_fix_of_shown_false evs (DepthRegion.init n) h
  refine ⟨hfix, ?_, ?_, ?_⟩ <;> rw [hfix] <;> rfl

/-- Claim C2.  The cell loops of `ShowElems` (embedded as `offsets`, used
for both the `i` and the `j` loop of `cellsFor`) run over the inclusive
asymmetric integer range [−r, 2·r + 1] — not the symmetric [−r, r] — and
hence visit 3·r + 2 offsets along each axis, for every radius r ≥ 0. -/
theorem c2_asymmetric_iteration_range (r : Nat) :
    (offsets r).length = 3 * r + 2 ∧
    (∀ z : Int, z ∈ offsets r ↔ -(r : Int) ≤ z ∧ z ≤ 2 * (r : Int) + 1) := by
  constructor
  · rw [offsets, List.length_map, List.length_range]
  · intro z
    rw [offsets]
    simp only [List.mem_map, List.mem_range]
    constructor
    · rintro ⟨k, hk, rfl⟩
      constructor <;> omega
    · rintro ⟨h1, h2⟩
      refine ⟨(z + (r : Int)).toNat, ?_, ?_⟩ <;> omega

/-- Claim C5.  The cell formatter of the depth overlay maps a 16-bit sample
v to `"invalid"` exactly when v ≥ 10000 and to its decimal representation
otherwise; in particular 10000 renders as `"invalid"` and 9999 as
`"9999"`. -/
theorem c5_invalid_sentinel (v : Nat) (hv : v < 65536) :
    (elem2string v = "invalid" ↔ 10000 ≤ v) ∧
    (v < 10000 → elem2string v = toString v) ∧
    elem2string 10000 = "invalid" ∧
    elem2string 9999 = "9999" := by
  refine ⟨⟨fun h => ?_, fun h => by rw [elem2string, if_pos h]⟩,
    fun h => by rw [elem2string, if_neg (by omega)], by decide, by decide⟩
  by_contra hlt
  exact elem2string_ne_invalid v (by omega) h

/-- Claim C5, witness: the rule applied at the boundary sample 10000. -/
theorem c5_witness :
    (elem2string 10000 = "invalid" ↔ 10000 ≤ 10000) ∧
    (10000 < 10000 → elem2string 10000 = toString 10000) ∧
    elem2string 10000 = "invalid" ∧
    elem2string 9999 = "9999" :=
  c5_invalid_sentinel 10000 (by decide)

/-- Claim C6.  Whenever the selector is visible, `ShowElems` allocates a
square canvas: `space * n` rows by `space * n` columns with
`n = 2 * n_ + 1`, i.e. side (2·radius + 1)·cellSize; for radius 3 and cell
size 80 the side is 560. -/
theorem c6_canvas_square (s : SelectorState) (depth : DepthMat)
    (f : Nat → String) (space : Int)
    (gi : Option (DepthMat → Int × Int → Nat → String))
    (h : s.shown = true) :
    ∃ g, ShowElems s depth f space gi = some g ∧
      g.rows = (2 * (s.n : Int) + 1) * space ∧
      g.cols = (2 * (s.n : Int) + 1) * space ∧
      g.rows = g.cols ∧
      (s.n = 3 → space = 80 → g.rows = 560) := by
  simp only [ShowElems, h]
  refine ⟨_, rfl, mul_comm space _, mul_comm space _, rfl, ?_⟩
  intro h3 h80
  show space * (2 * (s.n : Int) + 1) = 560
  rw [h3, h80]
  norm_num

/-- Claim C6, witness: the canvas for a visible selector with radius 3 and
cell size 80 is square with side 560. -/
theorem c6_witness :
    ∃ g, ShowElems ⟨3, true, false, 0, 0⟩ ⟨1, 1, fun _ _ => 0⟩ elem2string 80 none
        = some g ∧
      g.rows = (2 * ((3 : Nat) : Int) + 1) * 80 ∧
      g.cols = (2 * ((3 : Nat) : Int) + 1) * 80 ∧
      g.rows = g.cols ∧
      ((3 : Nat) = 3 → (80 : Int) = 80 → g.rows = 560) :=
  c6_canvas_square ⟨3, true, false, 0, 0⟩ ⟨1, 1, fun _ _ => 0⟩ elem2string 80 none rfl

/-- Claim C7.  Whenever the selector is visible (and the rectangle corners
are 32-bit representable, so the unsigned round-trip is value-preserving),
`DrawRect` paints an unfilled rectangle of line width 1 centered at the
selector's point with half-width max(radius, 1) + 1, green when pinned and
red when not pinned — two distinct colors. -/
theorem c7_rect_marker (s : SelectorState) (h : s.shown = true)
    (hxlo : -2147483648 ≤ s.px - ((max s.n 1 + 1 : Nat) : Int))
    (hxhi : s.px + ((max s.n 1 + 1 : Nat) : Int) < 2147483648)
    (hylo : -2147483648 ≤ s.py - ((max s.n 1 + 1 : Nat) : Int))
    (hyhi : s.py + ((max s.n 1 + 1 : Nat) : Int) < 2147483648) :
    ∃ r, DrawRect s = some r ∧
      r.x1 = s.px - ((max s.n 1 + 1 : Nat) : Int) ∧
      r.y1 = s.py - ((max s.n 1 + 1 : Nat) : Int) ∧
      r.x2 = s.px + ((max s.n 1 + 1 : Nat) : Int) ∧
      r.y2 = s.py + ((max s.n 1 + 1 : Nat) : Int) ∧
      r.thickness = 1 ∧
      r.color = (if s.selected then (0, 255, 0) else (0, 0, 255)) ∧
      ((0, 255, 0) : Int × Int × Int) ≠ (0, 0, 255) := by
  have hcast : (((if 1 < s.n then s.n else 1) + 1 : Nat) : Int)
      = ((max s.n 1 + 1 : Nat) : Int) := by
    rw [drawRect_halfwidth]
  simp only [DrawRect, h, hcast]
  refine ⟨_, rfl, ?_, ?_, ?_, ?_, rfl, rfl, by decide⟩
  · exact wrap32_eq_self _ hxlo (by omega)
  · exact wrap32_eq_self _ hylo (by omega)
  · exact wrap32_eq_self _ (by omega) hxhi
  · exact wrap32_eq_self _ (by omega) hyhi

/-- Claim C7, witness: the theorem applied at radius 3 (half-width 4) and at
radius 0 (half-width 2), both at point (100, 50), unpinned and pinned. -/
theorem c7_witness :
    (∃ r, DrawRect ⟨3, true, false, 100, 50⟩ = some r ∧
      r.x1 = 100 - ((max 3 1 + 1 : Nat) : Int) ∧
      r.y1 = 50 - ((max 3 1 + 1 : Nat) : Int) ∧
      r.x2 = 100 + ((max 3 1 + 1 : Nat) : Int) ∧
      r.y2 = 50 + ((max 3 1 + 1 : Nat) : Int) ∧
      r.thickness = 1 ∧
      r.color = (if false then (0, 255, 0) else (0, 0, 255)) ∧
      ((0, 255, 0) : Int × Int × Int) ≠ (0, 0, 255)) ∧
    (∃ r, DrawRect ⟨0, true, true, 100, 50⟩ = some r ∧
      r.x1 = 100 - ((max 0 1 + 1 : Nat) : Int) ∧
      r.y1 = 50 - ((max 0 1 + 1 : Nat) : Int) ∧
      r.x2 = 100 + ((max 0 1 + 1 : Nat) : Int) ∧
      r.y2 = 50 + ((max 0 1 + 1 : Nat) : Int) ∧
      r.thickness = 1 ∧
      r.color = (if true then (0, 255, 0) else (0, 0, 255)) ∧
      ((0, 255, 0) : Int × Int × Int) ≠ (0, 0, 255)) :=
  ⟨c7_rect_marker ⟨3, true, false, 100, 50⟩ rfl (by decide) (by decide)
      (by decide) (by decide),
   c7_rect_marker ⟨0, true, true, 100, 50⟩ rfl (by decide) (by decide)
      (by decide) (by decide)⟩

/-- Claim C8.  Every cell the grid renderer draws reads the depth buffer at
an in-bounds coordinate — its `(x, y)` satisfies 0 ≤ x < cols and
0 ≤ y < rows, and its text is the formatted sample read exactly there —
and for every offset pair whose sample coordinate falls outside the
bounds, no cell is drawn at all (the `continue` paths index nothing and
raise nothing). -/
theorem c8_oob_cells_skipped (s : SelectorState) (depth : DepthMat)
    (f : Nat → String) :
    (∀ c ∈ cellsFor s depth f,
        0 ≤ c.x ∧ c.x < depth.cols ∧ 0 ≤ c.y ∧ c.y < depth.rows ∧
        c.x = s.px + c.i ∧ c.y = s.py + c.j ∧
        c.text = f (depth.val c.y c.x)) ∧
    (∀ i j : Int,
        (s.px + i < 0 ∨ s.px + i ≥ depth.cols ∨
         s.py + j < 0 ∨ s.py + j ≥ depth.rows) →
        ∀ c ∈ cellsFor s depth f, ¬(c.i = i ∧ c.j = j)) := by
  constructor
  · intro c hc
    rw [mem_cellsFor_iff] at hc
    obtain ⟨i, hi, j, hj, hx, hy, rfl⟩ := hc
    push_neg at hx hy
    exact ⟨hx.1, hx.2, hy.1, hy.2, rfl, rfl, rfl⟩
  · rintro i j hout c hc ⟨rfl, rfl⟩
    rw [mem_cellsFor_iff] at hc
    obtain ⟨i2, hi2, j2, hj2, hx, hy, rfl⟩ := hc
    push_neg at hx hy
    dsimp only at hout
    omega

/-- Claim C8, witness: a visible selector with radius 1 at the corner
(0, 0) of a 2×2 buffer — every drawn cell is in bounds, and the offset
column i = −1 (sample x = −1 < 0) contributes no cell. -/
theorem c8_witness :
    (∀ c ∈ cellsFor ⟨1, true, false, 0, 0⟩ ⟨2, 2, fun _ _ => 7⟩ elem2string,
        0 ≤ c.x ∧ c.x < (2 : Int) ∧ 0 ≤ c.y ∧ c.y < (2 : Int) ∧
        c.x = 0 + c.i ∧ c.y = 0 + c.j ∧
        c.text = elem2string 7) ∧
    (∀ c ∈ cellsFor ⟨1, true, false, 0, 0⟩ ⟨2, 2, fun _ _ => 7⟩ elem2string,
        ¬(c.i = -1 ∧ c.j = 0)) := by
  have h := c8_oob_cells_skipped ⟨1, true, false, 0, 0⟩ ⟨2, 2, fun _ _ => 7⟩ elem2string
  exact ⟨h.1, h.2 (-1) 0 (by decide)⟩

/-- Claim C9.  When the selector is not visible — in particular on a fresh
selector, whose visibility flag starts false — `ShowElems` produces no
output and `DrawRect` paints nothing (the passed image is unchanged). -/
theorem c9_invisible_noop (s : SelectorState) (depth : DepthMat)
    (f : Nat → String) (space : Int)
    (gi : Option (DepthMat → Int × Int → Nat → String))
    (h : s.shown = false) :
    ShowElems s depth f space gi = none ∧
    DrawRect s = none ∧
    (∀ n : Nat, (DepthRegion.init n).shown = false) :=
  ⟨by simp [ShowElems, h], by simp [DrawRect, h], fun n => rfl⟩

/-- Claim C9, witness: a freshly constructed selector with radius 3 renders
nothing. -/
theorem c9_witness :
    ShowElems (DepthRegion.init 3) ⟨2, 2, fun _ _ => 7⟩ elem2string 80 none = none ∧
    DrawRect (DepthRegion.init 3) = none ∧
    (∀ n : Nat, (DepthRegion.init n).shown = false) :=
  c9_invisible_noop (DepthRegion.init 3) ⟨2, 2, fun _ _ => 7⟩ elem2string 80 none rfl

/-- Claim C10, witness: after only Other events the state with radius 3 is
still the initial state. -/
theorem c10_witness :
    applyEvents (DepthRegion.init 3) [(MouseEvent.other, 9, 9)] = DepthRegion.init 3 ∧
    (applyEvents (DepthRegion.init 3) [(MouseEvent.other, 9, 9)]).px = 0 ∧
    (applyEvents (DepthRegion.init 3) [(MouseEvent.other, 9, 9)]).py = 0 ∧
    (applyEvents (DepthRegion.init 3) [(MouseEvent.other, 9, 9)]).selected = false :=
  c10_invisible_means_initial 3 [(MouseEvent.other, 9, 9)] (by decide)

end DepthWithRegion
